import Mathlib

/-!
Shallow embedding of `src/verify_migration.py` (CrossCopy migration checklist).

The filesystem is modelled as a total map from paths to a `FileState`
(absent, existing-but-unreadable, or readable with a text content), and
The Python call `re.search(pattern, content, re.MULTILINE)` is abstracted as a
boolean oracle `search : String → String → Bool` passed to every function
that uses it: the script never inspects the match object, only its truthiness.
Each `print` is modelled as appending lines to an output list; a Python
`print` of a string containing a leading newline contributes two lines.
`sys.exit(1)` / falling off the end of `main` become an explicit exit code.
-/

inductive FileState where
  | absent : FileState
  | unreadable (err : String) : FileState
  | readable (content : String) : FileState
  deriving DecidableEq

def FS : Type := String → FileState

/-- Model of `os.path.exists`: true for any file that is present, readable or not. -/
def fileExists (fs : FS) (path : String) : Bool :=
  match fs path with
  | .absent => false
  | .unreadable _ => true
  | .readable _ => true

/-- One `(pattern, description)` pair of a content check. -/
structure Requirement where
  pattern : String
  desc : String

/-- Substring test on character lists, as the Python membership `sub in s`. -/
def strContains (sub : List Char) : List Char → Bool
  | [] => sub.isEmpty
  | c :: t => sub.isPrefixOf (c :: t) || strContains sub t

/-- The Python membership test `sub in s` on strings. -/
def pyIn (sub s : String) : Bool := strContains sub.data s.data

/-- Embedding of `check_file_exists(file_path, description)`: result and printed lines. -/
def check_file_exists (fs : FS) (file_path description : String) :
    Bool × List String :=
  if fileExists fs file_path then
    (true, ["✅ " ++ description ++ ": " ++ file_path])
  else
    (false, ["❌ " ++ description ++ ": " ++ file_path ++ " (不存在)"])

/-- The line appended to `results` for one requirement inside
`check_file_content`: `"  ✅ {desc}"` on a match, `"  ❌ {desc}"` otherwise. -/
def resultLine (search : String → String → Bool) (content : String)
    (r : Requirement) : String :=
  if search r.pattern content then "  ✅ " ++ r.desc else "  ❌ " ++ r.desc

/-- Embedding of `check_file_content(file_path, patterns, description)`: result and printed
lines.  The `.unreadable` branch is the `except Exception` handler; note the
returned boolean is `all("✅" in result for result in results)`, a test on the
printed strings, not on the match outcomes. -/
def check_file_content (search : String → String → Bool) (fs : FS)
    (file_path : String) (patterns : List Requirement) (description : String) :
    Bool × List String :=
  match fs file_path with
  | .absent =>
      (false, ["❌ " ++ description ++ ": " ++ file_path ++ " (文件不存在)"])
  | .unreadable e =>
      (false, ["❌ " ++ description ++ ": 读取文件失败 - " ++ e])
  | .readable content =>
      let results := patterns.map (resultLine search content)
      (results.all (fun r => pyIn "✅" r),
       ("📄 " ++ description ++ ": " ++ file_path) :: results)

def cargo_patterns : List Requirement :=
  [⟨"libp2p.*=.*\x7b.*version.*=.*\"0\\.53\"", "libp2p 依赖已添加"⟩,
   ⟨"\"tcp\"", "libp2p TCP 功能已配置"⟩,
   ⟨"futures.*=.*\"0\\.3\"", "futures 依赖已更新"⟩]

def config_patterns : List Requirement :=
  [⟨"pub enable_mdns: bool", "enable_mdns 字段已添加"⟩,
   ⟨"pub mdns_discovery_interval: u64", "mdns_discovery_interval 字段已添加"⟩,
   ⟨"pub enable_quic: bool", "enable_quic 字段已添加"⟩,
   ⟨"pub idle_connection_timeout: u64", "idle_connection_timeout 字段已添加"⟩]

def error_patterns : List Requirement :=
  [⟨"MdnsDiscoveryFailed\\(String\\)", "MdnsDiscoveryFailed 错误已添加"⟩,
   ⟨"Libp2p\\(String\\)", "Libp2p 错误已添加"⟩,
   ⟨"PeerNotFound\\(String\\)", "PeerNotFound 错误已添加"⟩,
   ⟨"Transport\\(String\\)", "Transport 错误已添加"⟩]

def connection_patterns : List Requirement :=
  [⟨"use libp2p::\x7bPeerId, Multiaddr\x7d", "libp2p 类型已导入"⟩,
   ⟨"pub peer_id: Option<PeerId>", "peer_id 字段已添加"⟩,
   ⟨"pub address: Option<Multiaddr>", "address 字段已添加"⟩,
   ⟨"pub message_sender: Option<mpsc::UnboundedSender<Message>>",
    "message_sender 字段已添加"⟩]

def manager_patterns : List Requirement :=
  [⟨"use libp2p::", "libp2p 已导入"⟩,
   ⟨"CrossCopyBehaviour", "CrossCopyBehaviour 已定义"⟩,
   ⟨"mdns::Event::Discovered", "mDNS 发现事件处理"⟩,
   ⟨"SwarmEvent::", "Swarm 事件处理"⟩]

def doc_spec_patterns : List Requirement :=
  [⟨"libp2p 协议栈", "技术规格已更新为 libp2p"⟩,
   ⟨"mDNS 发现", "mDNS 发现机制已文档化"⟩]

def doc_api_patterns : List Requirement :=
  [⟨"enable_mdns: bool", "API 文档已更新"⟩,
   ⟨"mdns_discovery_interval: u64", "mDNS 配置已文档化"⟩]

def doc_arch_patterns : List Requirement :=
  [⟨"libp2p.*点对点网络通信", "架构文档已更新"⟩,
   ⟨"mDNS 自动节点发现", "mDNS 架构已说明"⟩]

/-- The separator line, `"=" * 40` in the source. -/
def sep40 : String := String.mk (List.replicate 40 '=')

/-- The eleven check invocations of `main`, in program order, each paired with
the section-header lines printed just before it (the `print("\n1. …")` calls;
checks sharing a section contribute no extra header). -/
def sectionedChecks (search : String → String → Bool) (fs : FS) :
    List (List String × (Bool × List String)) :=
  [(["", "1. 检查依赖更新"],
    check_file_content search fs "Cargo.toml" cargo_patterns "Cargo.toml 依赖配置"),
   (["", "2. 检查配置结构更新"],
    check_file_content search fs "src/config/mod.rs" config_patterns "NetworkConfig 结构"),
   (["", "3. 检查网络错误类型更新"],
    check_file_content search fs "src/network/mod.rs" error_patterns "网络错误类型"),
   (["", "4. 检查连接结构更新"],
    check_file_content search fs "src/network/connection.rs" connection_patterns "Connection 结构"),
   (["", "5. 检查网络管理器更新"],
    check_file_content search fs "src/network/manager.rs" manager_patterns "NetworkManager 实现"),
   (["", "6. 检查文档更新"],
    check_file_content search fs "doc/technical-specification.md" doc_spec_patterns
      "文档: doc/technical-specification.md"),
   ([],
    check_file_content search fs "doc/api-reference.md" doc_api_patterns
      "文档: doc/api-reference.md"),
   ([],
    check_file_content search fs "doc/architecture.md" doc_arch_patterns
      "文档: doc/architecture.md"),
   (["", "7. 检查测试和示例文件"],
    check_file_exists fs "tests/network_libp2p_test.rs" "测试/示例文件"),
   ([],
    check_file_exists fs "examples/libp2p_network_demo.rs" "测试/示例文件"),
   ([],
    check_file_exists fs "NETWORK_MIGRATION.md" "测试/示例文件")]

/-- The boolean outcome of each individual check, in program order;
`all_checks_passed` is the conjunction of these. -/
def checkResults (search : String → String → Bool) (fs : FS) : List Bool :=
  (sectionedChecks search fs).map (fun p => p.2.1)

/-- All lines printed by the check sections, in program order. -/
def checksOutput (search : String → String → Bool) (fs : FS) : List String :=
  ((sectionedChecks search fs).map (fun p => p.1 ++ p.2.2)).flatten

/-- The all-pass banner printed when `all_checks_passed` holds. -/
def successBanner : List String :=
  ["🎉 所有检查通过！网络层迁移已完成",
   "", "迁移总结:",
   "✅ WebSocket → libp2p 迁移完成",
   "✅ mDNS 自动发现已实现",
   "✅ 配置结构已更新",
   "✅ 文档已同步更新",
   "✅ 测试和示例已创建",
   "", "下一步:",
   "1. 运行 \x27cargo check\x27 检查编译",
   "2. 运行 \x27cargo test\x27 执行测试",
   "3. 运行 \x27cargo run --example libp2p_network_demo\x27 查看演示"]

def warnLine : String := "⚠️  部分检查未通过，请检查上述问题"

/-- The exit-code aggregation law of the run: 1 when the precondition fails,
otherwise 0 iff every individual check returned true. -/
def aggExit (pre : Bool) (results : List Bool) : Nat :=
  if pre then (if results.all id then 0 else 1) else 1

/-- Embedding of `main()`: exit code and every line printed, in order. -/
def main_run (search : String → String → Bool) (fs : FS) : Nat × List String :=
  if fileExists fs "Cargo.toml" then
    if (checkResults search fs).all id then
      (0, ["CrossCopy 网络层迁移验证", sep40] ++ checksOutput search fs
            ++ ["", sep40] ++ successBanner)
    else
      (1, ["CrossCopy 网络层迁移验证", sep40] ++ checksOutput search fs
            ++ ["", sep40, warnLine])
  else
    (1, ["CrossCopy 网络层迁移验证", sep40, "❌ 请在项目根目录运行此脚本"])

/-! ### Demo fixtures used by witnesses and counterexamples -/

/-- A filesystem with no file at all. -/
def fsAbsent : FS := fun _ => FileState.absent

/-- A filesystem where every path is a readable empty file. -/
def fsAll : FS := fun _ => FileState.readable ""

/-- A filesystem where every read raises. -/
def fsErr : FS := fun _ => FileState.unreadable "Permission denied"

/-- A filesystem with a single readable file `"f"`. -/
def fsCex : FS := fun p => if p = "f" then FileState.readable "" else FileState.absent

/-- A search oracle where every pattern matches. -/
def searchTrue : String → String → Bool := fun _ _ => true

/-- A search oracle where no pattern matches. -/
def searchFalse : String → String → Bool := fun _ _ => false

/-- A search oracle failing exactly the first cargo pattern. -/
def searchCargo1 : String → String → Bool :=
  fun pat _ => pat != "libp2p.*=.*\x7b.*version.*=.*\"0\\.53\""

/-! ### Helper lemmas -/

lemma strContains_singleton (c : Char) (l : List Char) :
    strContains [c] l = true ↔ c ∈ l := by
  induction l with
  | nil => simp [strContains, List.isEmpty]
  | cons a t ih => simp [strContains, List.isPrefixOf, ih]

lemma pyIn_check_iff (s : String) : pyIn "✅" s = true ↔ '✅' ∈ s.data := by
  have h : "✅".data = ['✅'] := rfl
  rw [pyIn, h, strContains_singleton]

lemma pyIn_check_append_pos (d : String) : pyIn "✅" ("  ✅ " ++ d) = true := by
  rw [pyIn_check_iff, String.data_append, List.mem_append]
  exact Or.inl (by decide)

lemma pyIn_check_append_neg (d : String) : pyIn "✅" ("  ❌ " ++ d) = pyIn "✅" d := by
  have hiff : pyIn "✅" ("  ❌ " ++ d) = true ↔ pyIn "✅" d = true := by
    rw [pyIn_check_iff, pyIn_check_iff, String.data_append, List.mem_append]
    constructor
    · rintro (hmem | hmem)
      · exact absurd hmem (by decide)
      · exact hmem
    · exact fun hmem => Or.inr hmem
  rcases hb : pyIn "✅" d with _ | _
  · rw [← Bool.not_eq_true]
    intro hx
    rw [hb] at hiff
    exact absurd (hiff.mp hx) (by decide)
  · exact hiff.mpr hb

lemma pyIn_resultLine (search : String → String → Bool) (content : String)
    (r : Requirement) :
    pyIn "✅" (resultLine search content r) =
      (search r.pattern content || pyIn "✅" r.desc) := by
  unfold resultLine
  rcases hb : search r.pattern content with _ | _
  · simp [hb, pyIn_check_append_neg]
  · simp [hb, pyIn_check_append_pos]

lemma all_pyIn_map (search : String → String → Bool) (content : String)
    (patterns : List Requirement) :
    (patterns.map (resultLine search content)).all (fun r => pyIn "✅" r) =
      patterns.all (fun r => search r.pattern content || pyIn "✅" r.desc) := by
  induction patterns with
  | nil => rfl
  | cons r t ih => simp [List.all_cons, ih, pyIn_resultLine]

lemma check_file_content_readable (search : String → String → Bool) (fs : FS)
    (file_path : String) (patterns : List Requirement) (description : String)
    (content : String) (h : fs file_path = FileState.readable content) :
    check_file_content search fs file_path patterns description =
      (patterns.all (fun r => search r.pattern content || pyIn "✅" r.desc),
       ("📄 " ++ description ++ ": " ++ file_path)
         :: patterns.map (resultLine search content)) := by
  simp [check_file_content, h, all_pyIn_map]

lemma all_id_getElem (rs : List Bool) :
    rs.all id = true ↔ ∀ (j : Nat) (hj : j < rs.length), rs[j] = true := by
  rw [List.all_eq_true]
  constructor
  · intro h j hj
    exact h _ (List.getElem_mem hj)
  · intro h x hx
    obtain ⟨n, hn, rfl⟩ := List.mem_iff_getElem.mp hx
    exact h n hn

lemma aggExit_flip (rs : List Bool) (i : Nat) (hi : i < rs.length)
    (hothers : ∀ (j : Nat) (hj : j < rs.length), j ≠ i → rs[j] = true) :
    aggExit true (rs.set i (!rs[i])) ≠ aggExit true rs := by
  rcases hb : rs[i] with _ | _
  · -- the flipped check was failing, every other one passing: 1 becomes 0
    simp only [Bool.not_false]
    have hold : rs.all id = false := by
      rw [← Bool.not_eq_true, all_id_getElem]
      intro hall
      have := hall i hi
      rw [hb] at this
      exact absurd this (by decide)
    have hnew : (rs.set i true).all id = true := by
      rw [all_id_getElem]
      intro j hj
      have hj' : j < rs.length := by simpa using hj
      by_cases hji : j = i
      · subst hji
        rw [List.getElem_set_self]
      · rw [List.getElem_set_ne (show i ≠ j from fun hh => hji hh.symm)]
        exact hothers j hj' hji
    unfold aggExit
    rw [hnew, hold]
    decide
  · -- every check was passing: 0 becomes 1
    simp only [Bool.not_true]
    have hold : rs.all id = true := by
      rw [all_id_getElem]
      intro j hj
      by_cases hji : j = i
      · subst hji; exact hb
      · exact hothers j hj hji
    have hnew : (rs.set i false).all id = false := by
      rw [← Bool.not_eq_true, all_id_getElem]
      intro hall
      have := hall i (by simpa using hi)
      rw [List.getElem_set_self] at this
      exact absurd this (by decide)
    unfold aggExit
    rw [hnew, hold]
    decide

/-! ### Claims -/

/-- Claim C1: the exit code equals `aggExit` applied to the precondition bit
and the per-check booleans — 0 iff the marker file exists and every individual
check returned true, 1 otherwise — and flipping the outcome of a single check while
every other check passes flips the aggregated exit code. -/
theorem c1_exit_aggregation (search : String → String → Bool) (fs : FS) :
    ((main_run search fs).1 =
        aggExit (fileExists fs "Cargo.toml") (checkResults search fs))
    ∧ ((main_run search fs).1 = 0 ↔
        (fileExists fs "Cargo.toml" = true ∧ (checkResults search fs).all id = true))
    ∧ (∀ (rs : List Bool) (i : Nat) (hi : i < rs.length),
        (∀ (j : Nat) (hj : j < rs.length), j ≠ i → rs[j] = true) →
        aggExit true (rs.set i (!rs[i])) ≠ aggExit true rs) := by
  refine ⟨?_, ?_, fun rs i hi hothers => aggExit_flip rs i hi hothers⟩
  · by_cases h1 : fileExists fs "Cargo.toml" = true
    · by_cases h2 : (checkResults search fs).all id = true
      · simp [main_run, aggExit, h1, h2]
      · simp [main_run, aggExit, h1, h2]
    · simp [main_run, aggExit, h1]
  · by_cases h1 : fileExists fs "Cargo.toml" = true
    · by_cases h2 : (checkResults search fs).all id = true
      · simp [main_run, h1, h2]
      · simp [main_run, h1, h2]
    · simp [main_run, h1]

/-- Claim C1 witness: at an all-pass filesystem the characterisation holds, and
flipping the one passing check of `[true]` changes the aggregated exit code. -/
theorem c1_witness :
    (((main_run searchTrue fsAll).1 = 0 ↔
        (fileExists fsAll "Cargo.toml" = true ∧
         (checkResults searchTrue fsAll).all id = true)))
    ∧ aggExit true [false] ≠ aggExit true [true] :=
  ⟨(c1_exit_aggregation searchTrue fsAll).2.1,
   (c1_exit_aggregation searchTrue fsAll).2.2 [true] 0 (by decide)
     (fun j hj hne => absurd (Nat.lt_one_iff.mp hj) hne)⟩

/-- Claim C3: `check_file_exists` returns true and emits the success line
exactly when the path exists at call time, and returns false with the failure
line otherwise; being a total function, no exception arises for a missing
file. -/
theorem c3_check_file_exists (fs : FS) (path desc : String) :
    ((check_file_exists fs path desc).1 = fileExists fs path)
    ∧ (fileExists fs path = true →
        check_file_exists fs path desc = (true, ["✅ " ++ desc ++ ": " ++ path]))
    ∧ (fileExists fs path = false →
        check_file_exists fs path desc =
          (false, ["❌ " ++ desc ++ ": " ++ path ++ " (不存在)"])) := by
  rcases h : fileExists fs path with _ | _ <;> simp [check_file_exists, h]

/-- Claim C3 witness: on a filesystem where every path exists, the success
branch is taken for path `"a"`. -/
theorem c3_witness :
    ((check_file_exists fsAll "a" "d").1 = fileExists fsAll "a")
    ∧ check_file_exists fsAll "a" "d" = (true, ["✅ " ++ "d" ++ ": " ++ "a"]) :=
  ⟨(c3_check_file_exists fsAll "a" "d").1,
   (c3_check_file_exists fsAll "a" "d").2.1 rfl⟩

/-- Claim C4: `check_file_content` returns false for an absent file whatever
the requirements list is, and with the empty requirements list it returns true
exactly when the file exists and is readable. -/
theorem c4_absent_and_empty (search : String → String → Bool) (fs : FS)
    (path desc : String) (patterns : List Requirement) :
    (fs path = FileState.absent →
      (check_file_content search fs path patterns desc).1 = false)
    ∧ ((check_file_content search fs path [] desc).1 = true ↔
        ∃ c, fs path = FileState.readable c) := by
  constructor
  · intro h
    simp [check_file_content, h]
  · rcases h : fs path with _ | e | c <;> simp [check_file_content, h]

/-- Claim C4 witness: an absent file makes the check false even with a
non-empty requirements list. -/
theorem c4_witness :
    fsAbsent "x" = FileState.absent
    ∧ (check_file_content searchTrue fsAbsent "x" cargo_patterns "d").1 = false :=
  ⟨rfl, (c4_absent_and_empty searchTrue fsAbsent "x" "d" cargo_patterns).1 rfl⟩

/-- Claim C5: a read failure is contained inside `check_file_content` — the
check prints one inline error line and returns false — and the run always ends
with exit code 0 or 1, where 1 can only arise from a missing precondition or
from some check having returned false. -/
theorem c5_io_failure_contained (search : String → String → Bool) (fs : FS)
    (path desc : String) (patterns : List Requirement) (e : String) :
    (fs path = FileState.unreadable e →
      check_file_content search fs path patterns desc =
        (false, ["❌ " ++ desc ++ ": 读取文件失败 - " ++ e]))
    ∧ ((main_run search fs).1 = 0 ∨ (main_run search fs).1 = 1)
    ∧ ((main_run search fs).1 = 1 →
        fileExists fs "Cargo.toml" = false ∨
          (checkResults search fs).all id = false) := by
  refine ⟨fun h => by simp [check_file_content, h], ?_, ?_⟩
  · by_cases h1 : fileExists fs "Cargo.toml" = true
    · by_cases h2 : (checkResults search fs).all id = true
      · exact Or.inl (by simp [main_run, h1, h2])
      · exact Or.inr (by simp [main_run, h1, h2])
    · exact Or.inr (by simp [main_run, h1])
  · intro hmain
    by_cases h1 : fileExists fs "Cargo.toml" = true
    · by_cases h2 : (checkResults search fs).all id = true
      · exact absurd hmain (by simp [main_run, h1, h2])
      · exact Or.inr (Bool.eq_false_iff.mpr h2)
    · exact Or.inl (Bool.eq_false_iff.mpr h1)

/-- Claim C5 witness: on a filesystem where every read raises, the dependency
check reports the inline error and returns false. -/
theorem c5_witness :
    fsErr "Cargo.toml" = FileState.unreadable "Permission denied"
    ∧ check_file_content searchTrue fsErr "Cargo.toml" cargo_patterns "d" =
        (false, ["❌ " ++ "d" ++ ": 读取文件失败 - " ++ "Permission denied"]) :=
  ⟨rfl,
   (c5_io_failure_contained searchTrue fsErr "Cargo.toml" "d" cargo_patterns
      "Permission denied").1 rfl⟩

/-- Claim C6: when the marker file `Cargo.toml` is absent, the run prints the
two banner lines and one error line, performs zero checks, and exits 1. -/
theorem c6_missing_precondition (search : String → String → Bool) (fs : FS)
    (h : fileExists fs "Cargo.toml" = false) :
    main_run search fs =
      (1, ["CrossCopy 网络层迁移验证", sep40, "❌ 请在项目根目录运行此脚本"]) := by
  simp [main_run, h]

/-- Claim C6 witness: the empty filesystem takes the precondition-failure
branch. -/
theorem c6_witness :
    fileExists fsAbsent "Cargo.toml" = false
    ∧ main_run searchTrue fsAbsent =
        (1, ["CrossCopy 网络层迁移验证", sep40, "❌ 请在项目根目录运行此脚本"]) :=
  ⟨rfl, c6_missing_precondition searchTrue fsAbsent rfl⟩

/-- Claim C7: precondition present and every check passing → the run prints
the check sections followed by the success banner — which contains exactly
five ✅ confirmation lines and ends with the three next-step hints — and exits
with code 0. -/
theorem c7_success_banner (search : String → String → Bool) (fs : FS)
    (h1 : fileExists fs "Cargo.toml" = true)
    (h2 : (checkResults search fs).all id = true) :
    (main_run search fs =
      (0, ["CrossCopy 网络层迁移验证", sep40] ++ checksOutput search fs
            ++ ["", sep40] ++ successBanner))
    ∧ successBanner.countP (fun l => pyIn "✅" l) = 5
    ∧ successBanner.drop 10 =
        ["1. 运行 \x27cargo check\x27 检查编译",
         "2. 运行 \x27cargo test\x27 执行测试",
         "3. 运行 \x27cargo run --example libp2p_network_demo\x27 查看演示"] := by
  refine ⟨by simp [main_run, h1, h2], by decide, by decide⟩

/-- Claim C7 witness: with every file readable and every pattern matching, all
eleven checks pass and the success banner is printed with exit code 0. -/
theorem c7_witness :
    fileExists fsAll "Cargo.toml" = true
    ∧ (checkResults searchTrue fsAll).all id = true
    ∧ main_run searchTrue fsAll =
        (0, ["CrossCopy 网络层迁移验证", sep40] ++ checksOutput searchTrue fsAll
              ++ ["", sep40] ++ successBanner) :=
  ⟨rfl, by decide, (c7_success_banner searchTrue fsAll rfl (by decide)).1⟩

/-- Claim C9: the run is a pure function of the filesystem snapshot: two runs
over pointwise-equal filesystems produce identical exit codes, identical
output lines, and identical per-check results. -/
theorem c9_deterministic (search : String → String → Bool) (fs fs2 : FS)
    (h : ∀ p, fs p = fs2 p) :
    main_run search fs = main_run search fs2
    ∧ checkResults search fs = checkResults search fs2 := by
  have heq : fs = fs2 := funext h
  subst heq
  exact ⟨rfl, rfl⟩

/-- Claim C9 witness: running twice against the unchanged all-pass filesystem
gives identical results. -/
theorem c9_witness :
    main_run searchTrue fsAll = main_run searchTrue fsAll
    ∧ checkResults searchTrue fsAll = checkResults searchTrue fsAll :=
  c9_deterministic searchTrue fsAll fsAll (fun _ => rfl)

/-- Claim C2 counterexample: a readable file together with a single requirement
whose pattern does not match but whose description contains "✅" still makes
the check return true, refuting the claim that the result is true only if
every pattern of the requirements matched. -/
theorem c2_counterexample :
    fsCex "f" = FileState.readable ""
    ∧ searchFalse "x" "" = false
    ∧ (check_file_content searchFalse fsCex "f"
        [Requirement.mk "x" "包含 ✅ 的描述"] "d").1 = true :=
  ⟨rfl, rfl, by decide⟩

/-- Claim C2 (amended): when the file is readable, `check_file_content` emits
one header line naming the file plus one success/failure line per requirement,
and returns true iff for every requirement the pattern matched **or** the
description of the requirement itself contains "✅"; in particular, when no
description contains "✅", it returns true iff every pattern matched. -/
theorem c2_content_check (search : String → String → Bool) (fs : FS)
    (path desc content : String) (patterns : List Requirement)
    (h : fs path = FileState.readable content) :
    ((check_file_content search fs path patterns desc).2 =
      ("📄 " ++ desc ++ ": " ++ path) :: patterns.map (resultLine search content))
    ∧ ((check_file_content search fs path patterns desc).1 = true ↔
        ∀ r ∈ patterns,
          search r.pattern content = true ∨ pyIn "✅" r.desc = true)
    ∧ ((∀ r ∈ patterns, pyIn "✅" r.desc = false) →
        ((check_file_content search fs path patterns desc).1 = true ↔
          ∀ r ∈ patterns, search r.pattern content = true)) := by
  rw [check_file_content_readable search fs path patterns desc content h]
  refine ⟨rfl, ?_, ?_⟩
  · show patterns.all
        (fun r => search r.pattern content || pyIn "✅" r.desc) = true ↔ _
    simp [List.all_eq_true, Bool.or_eq_true]
  · intro hnone
    show patterns.all
        (fun r => search r.pattern content || pyIn "✅" r.desc) = true ↔ _
    rw [List.all_eq_true]
    constructor
    · intro hall r hr
      rcases Bool.or_eq_true _ _ |>.mp (hall r hr) with hs | hdesc
      · exact hs
      · rw [hnone r hr] at hdesc
        exact absurd hdesc (by decide)
    · intro hall r hr
      exact Bool.or_eq_true _ _ |>.mpr (Or.inl (hall r hr))

/-- Claim C2 witness: the amended equivalence at a concrete readable file and
the real cargo requirements list. -/
theorem c2_witness :
    fsAll "p" = FileState.readable ""
    ∧ ((check_file_content searchTrue fsAll "p" cargo_patterns "d").1 = true ↔
        ∀ r ∈ cargo_patterns,
          searchTrue r.pattern "" = true ∨ pyIn "✅" r.desc = true) :=
  ⟨rfl, (c2_content_check searchTrue fsAll "p" "d" "" cargo_patterns rfl).2.1⟩

/-- Claim C10: for a readable file the returned boolean is derived from the
printed status strings — it equals "every per-requirement result line contains
✅" — so a requirement whose description contains "✅" produces a passing line
even when its pattern does not match, and when every description contains "✅"
the check returns true regardless of any match outcome. -/
theorem c10_string_derived_result (search : String → String → Bool) (fs : FS)
    (path desc content : String) (patterns : List Requirement)
    (h : fs path = FileState.readable content) :
    ((check_file_content search fs path patterns desc).1 =
      ((check_file_content search fs path patterns desc).2.tail).all
        (fun l => pyIn "✅" l))
    ∧ (∀ r ∈ patterns, pyIn "✅" r.desc = true →
        pyIn "✅" (resultLine search content r) = true)
    ∧ (patterns.all (fun r => pyIn "✅" r.desc) = true →
        (check_file_content search fs path patterns desc).1 = true) := by
  rw [check_file_content_readable search fs path patterns desc content h]
  refine ⟨(all_pyIn_map search content patterns).symm, ?_, ?_⟩
  · intro r hr hdesc
    rw [pyIn_resultLine]
    simp [hdesc]
  · intro hall
    show patterns.all
        (fun r => search r.pattern content || pyIn "✅" r.desc) = true
    rw [List.all_eq_true] at hall ⊢
    intro r hr
    exact Bool.or_eq_true _ _ |>.mpr (Or.inr (hall r hr))

/-- Claim C10 witness: a non-matching requirement whose description contains
"✅" makes the whole check return true. -/
theorem c10_witness :
    fsCex "f" = FileState.readable ""
    ∧ List.all [Requirement.mk "x" "✅ 标"] (fun r => pyIn "✅" r.desc) = true
    ∧ (check_file_content searchFalse fsCex "f"
        [Requirement.mk "x" "✅ 标"] "d").1 = true :=
  ⟨rfl, by decide,
   (c10_string_derived_result searchFalse fsCex "f" "d" ""
      [Requirement.mk "x" "✅ 标"] rfl).2.2 (by decide)⟩

/-- Claim C8: precondition present and `Cargo.toml` readable but failing
exactly one of its three required patterns → the dependency section prints two
✅ lines and one ❌ line, the run still produces the output of every later section
unconditionally (the whole `checksOutput` and the final warning are printed),
and the exit code is 1. -/
theorem c8_one_cargo_failure (search : String → String → Bool) (fs : FS)
    (content : String) (h : fs "Cargo.toml" = FileState.readable content)
    (hone :
      (search "libp2p.*=.*\x7b.*version.*=.*\"0\\.53\"" content = false ∧
       search "\"tcp\"" content = true ∧
       search "futures.*=.*\"0\\.3\"" content = true) ∨
      (search "libp2p.*=.*\x7b.*version.*=.*\"0\\.53\"" content = true ∧
       search "\"tcp\"" content = false ∧
       search "futures.*=.*\"0\\.3\"" content = true) ∨
      (search "libp2p.*=.*\x7b.*version.*=.*\"0\\.53\"" content = true ∧
       search "\"tcp\"" content = true ∧
       search "futures.*=.*\"0\\.3\"" content = false)) :
    ((check_file_content search fs "Cargo.toml" cargo_patterns
        "Cargo.toml 依赖配置").2.countP (fun l => pyIn "✅" l) = 2)
    ∧ ((check_file_content search fs "Cargo.toml" cargo_patterns
        "Cargo.toml 依赖配置").2.countP (fun l => pyIn "❌" l) = 1)
    ∧ ((main_run search fs).1 = 1)
    ∧ ((main_run search fs).2 =
        ["CrossCopy 网络层迁移验证", sep40] ++ checksOutput search fs
          ++ ["", sep40, warnLine]) := by
  have hpre : fileExists fs "Cargo.toml" = true := by
    unfold fileExists
    rw [h]
  have hc := check_file_content_readable search fs "Cargo.toml" cargo_patterns
    "Cargo.toml 依赖配置" content h
  have hfail : (check_file_content search fs "Cargo.toml" cargo_patterns
      "Cargo.toml 依赖配置").1 = false := by
    rw [hc]
    show cargo_patterns.all
        (fun r => search r.pattern content || pyIn "✅" r.desc) = false
    rcases hone with ⟨hb1, hb2, hb3⟩ | ⟨hb1, hb2, hb3⟩ | ⟨hb1, hb2, hb3⟩ <;>
      simp [cargo_patterns, hb1, hb2, hb3] <;> decide
  have hall : (checkResults search fs).all id = false := by
    simp [checkResults, sectionedChecks, hfail]
  refine ⟨?_, ?_, by simp [main_run, hpre, hall], by simp [main_run, hpre, hall]⟩
  · rw [hc]
    rcases hone with ⟨hb1, hb2, hb3⟩ | ⟨hb1, hb2, hb3⟩ | ⟨hb1, hb2, hb3⟩ <;>
      simp [cargo_patterns, resultLine, hb1, hb2, hb3] <;> decide
  · rw [hc]
    rcases hone with ⟨hb1, hb2, hb3⟩ | ⟨hb1, hb2, hb3⟩ | ⟨hb1, hb2, hb3⟩ <;>
      simp [cargo_patterns, resultLine, hb1, hb2, hb3] <;> decide

/-- Claim C8 witness: a search oracle failing exactly the first cargo pattern
over an all-readable filesystem yields two ✅ lines, one ❌ line and exit
code 1. -/
theorem c8_witness :
    fsAll "Cargo.toml" = FileState.readable ""
    ∧ ((check_file_content searchCargo1 fsAll "Cargo.toml" cargo_patterns
        "Cargo.toml 依赖配置").2.countP (fun l => pyIn "✅" l) = 2)
    ∧ (main_run searchCargo1 fsAll).1 = 1 :=
  ⟨rfl,
   (c8_one_cargo_failure searchCargo1 fsAll "" rfl
      (Or.inl ⟨by decide, by decide, by decide⟩)).1,
   (c8_one_cargo_failure searchCargo1 fsAll "" rfl
      (Or.inl ⟨by decide, by decide, by decide⟩)).2.2.1⟩
